import Mathlib

/-!
Shallow embedding of `satellite_populate/api.py` (class `APIPopulator`).

The populator applies declarative actions (create / update / delete, plus a
separate validation pass) against a remote entity API.  The external
entity/search client (nailgun) is out of scope and is modelled as an oracle
(`Api`) describing the outcome of each network operation of one handler
invocation; every network operation a handler issues is also recorded in an
explicit call trace (`NetCall`) so that properties such as "raises before any
network call" or "no mutation call is issued" are statable.

`BasePopulator` (module `satellite_populate.base`) is not part of the given
sources; the pieces of it that `api.py` uses (`get_search_result`,
`add_to_registry`, the `validation_errors` / `created` / `found` attributes and
`mode`) are modelled from the spec and marked as such in their doc comments.

Python exceptions are modelled by `Except PError`; Python truthiness of the
optional `id` / `search_query` values is modelled explicitly
(`optNatTruthy` / `optStrTruthy`, since `0` and `""` are falsy in Python).
-/

namespace SatPop

/-- An entity handle: a remote entity reference with an `id` and the field
values the local object was constructed with. -/
structure Entity where
  id : Nat
  fields : List (String × String)
deriving DecidableEq, Repr

/-- Python exceptions relevant to `api.py`: `requests.exceptions.HTTPError`
(carrying `e.response.content`), `RuntimeError`, `TypeError` and
`AttributeError`. -/
inductive PError where
  | httpError (msg : String) (responseContent : String)
  | runtimeError (msg : String)
  | typeError (msg : String)
  | attributeError (msg : String)
deriving DecidableEq, Repr

/-- `isinstance(e, HTTPError)`. -/
def isHTTPError : PError → Bool
  | .httpError _ _ => true
  | _ => false

/-- `str(e)` for an exception. -/
def errString : PError → String
  | .httpError m _ => m
  | .runtimeError m => m
  | .typeError m => m
  | .attributeError m => m

/-- The `action_data` dictionary of one action, with the `.get` defaults of
`api.py` already applied to the two boolean flags (`silent_errors` and
`skip_validation` default to `False`). -/
structure ActionData where
  model : String
  search_query : Option String
  id : Option Nat
  silent_errors : Bool
  skip_validation : Bool
deriving DecidableEq, Repr

/-- Python truthiness of an optional integer (`None` and `0` are falsy). -/
def optNatTruthy : Option Nat → Bool
  | none => false
  | some n => n != 0

/-- Python truthiness of an optional string (`None` and `""` are falsy). -/
def optStrTruthy : Option String → Bool
  | none => false
  | some s => s != ""

/-- Stand-in for Python's `str(action_data)` (the exact dict repr is
irrelevant to every property below; only that some rendering is appended). -/
def showActionData (ad : ActionData) : String :=
  "\x7bmodel: " ++ ad.model ++ "\x7d"

/-- The `e` argument of `add_and_log_error`: either an exception or a plain
string (the `validate` path passes `'entity does not exist in the system'`). -/
inductive ErrArg where
  | exc (e : PError)
  | msg (s : String)
deriving DecidableEq, Repr

/-- `str(e)` on the argument of `add_and_log_error`. -/
def ErrArg.str : ErrArg → String
  | .exc e => errString e
  | .msg s => s

/-- `e.response.content` when `hasattr(e, 'response')` (only `HTTPError`
carries a response). -/
def ErrArg.responseContent : ErrArg → Option String
  | .exc (.httpError _ c) => some c
  | _ => none

/-- One record appended to `validation_errors` by `add_and_log_error`. -/
structure ErrorRecord where
  search : String
  message : String
  rendered_action_data : List (String × String)
  action_data : ActionData
deriving DecidableEq, Repr

/-- One network operation issued against the remote API. -/
inductive NetCall where
  | search (model : String) (predicate : String)
  | create (model : String) (fields : List (String × String))
  | update (model : String) (id : Nat) (fields : List (String × String))
      (fieldNames : List String)
  | delete (model : String) (id : Nat)
deriving DecidableEq, Repr

/-- Run-scoped mutable state of the populator: `validation_errors`, the
registry, and the `created` / `found` lists (attributes of `BasePopulator`,
listed as the produced artifacts of a run in the spec). -/
structure PopState where
  validation_errors : List ErrorRecord
  registry : List (ActionData × Option Entity)
  created : List Entity
  found : List Entity
deriving DecidableEq, Repr

/-- The empty run-scoped state at the start of a populate run. -/
def initState : PopState := ⟨[], [], [], []⟩

deriving instance DecidableEq for Except

/-- Oracle for the external entity/search client during one handler
invocation: what the unique search yields (a handle, an explicit absence, or a
raised error such as a transport failure or an ambiguous match), what
`.create()` yields, whether `.update(...)` / `.delete()` raise, and whether
the model supports search (`issubclass(model, EntitySearchMixin)`). -/
structure Api where
  searchResult : Except PError (Option Entity)
  createResult : Except PError Entity
  updateError : Option PError
  deleteError : Option PError
  searchable : Bool
deriving DecidableEq, Repr

/-- Modelled from the spec: `BasePopulator.get_search_result` is not under the
given sources.  Per the spec's SearchResolver contract it executes the
predicate against the model's search capability and, with `unique=true`,
returns one match, an explicit absence (empty result), or fails (transport
failure, ambiguous match); the outcome is supplied by the `Api` oracle.  A
search network call is always issued. -/
def get_search_result (api : Api) (model : String) (search : String)
    (unique : Bool) (silent_errors : Bool) :
    Except PError (Option Entity) × List NetCall :=
  let _ := unique
  let _ := silent_errors
  (api.searchResult, [NetCall.search model search])

/-- Modelled from the spec: `BasePopulator.add_to_registry` is not under the
given sources.  Per the spec's Registry contract it records exactly one entry
mapping the action's declared identity to its resolved
entity-handle-or-absence. -/
def add_to_registry (st : PopState) (action_data : ActionData)
    (result : Option Entity) : PopState :=
  { st with registry := st.registry ++ [(action_data, result)] }

/-- The error message built by `add_and_log_error`:
`"%s: %s %s" % (mode, str(e) if e else '', action_data)`, plus
`str(e.response.content)` when the exception has a response. -/
def mkErrorMessage (mode : String) (action_data : ActionData)
    (e : Option ErrArg) : String :=
  mode ++ ": " ++ (match e with | none => "" | some a => a.str) ++ " "
    ++ showActionData action_data
    ++ (match e with
        | some a => (a.responseContent).getD ""
        | none => "")

/-- `APIPopulator.add_and_log_error`: builds the error message and appends one
record to `validation_errors` (`mode` is the populator's run mode
attribute). -/
def add_and_log_error (mode : String) (st : PopState)
    (action_data : ActionData) (rendered_action_data : List (String × String))
    (search : String) (e : Option ErrArg) : PopState :=
  { st with validation_errors := st.validation_errors ++
      [{ search := search
         message := mkErrorMessage mode action_data e
         rendered_action_data := rendered_action_data
         action_data := action_data }] }

/-- `APIPopulator.action_create`: unique search first; if a result is found it
is appended to `found` and returned with no further call; otherwise the entity
is constructed from `rendered_action_data`, `create` is issued, and the new
handle is appended to `created`. -/
def action_create (api : Api) (rendered_action_data : List (String × String))
    (action_data : ActionData) (search : String) (model : String)
    (silent_errors : Bool) (st : PopState) :
    Except PError (Option Entity) × PopState × List NetCall :=
  let _ := action_data
  match get_search_result api model search true silent_errors with
  | (Except.error e, calls) => (Except.error e, st, calls)
  | (Except.ok (some result), calls) =>
      (Except.ok (some result), { st with found := st.found ++ [result] },
       calls)
  | (Except.ok none, calls) =>
      match api.createResult with
      | Except.error e =>
          (Except.error e, st,
           calls ++ [NetCall.create model rendered_action_data])
      | Except.ok result =>
          (Except.ok (some result),
           { st with created := st.created ++ [result] },
           calls ++ [NetCall.create model rendered_action_data])

/-- `APIPopulator.action_update`: requires a truthy `id` or `search_query`
(else `RuntimeError` before any network call); resolves the id by unique
search when absent; constructs `model(id=entity_id, **rendered_action_data)`
and issues `entity.update(list(rendered_action_data.keys()))`, returning the
local entity object. -/
def action_update (api : Api) (rendered_action_data : List (String × String))
    (action_data : ActionData) (search : String) (model : String)
    (silent_errors : Bool) (st : PopState) :
    Except PError (Option Entity) × PopState × List NetCall :=
  let search_data := action_data.search_query
  let entity_id := action_data.id
  if !optNatTruthy entity_id && !optStrTruthy search_data then
    (Except.error (PError.runtimeError "update: missing id or search_query"),
     st, [])
  else
    let resolved : Except PError Nat × List NetCall :=
      if !optNatTruthy entity_id then
        match get_search_result api model search true silent_errors with
        | (Except.error e, calls) => (Except.error e, calls)
        | (Except.ok none, calls) =>
            (Except.error (PError.runtimeError "update: Cannot find entity"),
             calls)
        | (Except.ok (some search_result), calls) =>
            (Except.ok search_result.id, calls)
      else
        (Except.ok (entity_id.getD 0), [])
    match resolved with
    | (Except.error e, calls) => (Except.error e, st, calls)
    | (Except.ok eid, calls) =>
        let entity : Entity := ⟨eid, rendered_action_data⟩
        let calls := calls ++
          [NetCall.update model eid rendered_action_data
            (rendered_action_data.map Prod.fst)]
        match api.updateError with
        | some e => (Except.error e, st, calls)
        | none => (Except.ok (some entity), st, calls)

/-- `APIPopulator.action_delete`: same id/search precondition and resolution
as update; issues `model(id=entity_id).delete()` (no field values are sent)
and returns `None` (Python functions without `return`). -/
def action_delete (api : Api) (rendered_action_data : List (String × String))
    (action_data : ActionData) (search : String) (model : String)
    (silent_errors : Bool) (st : PopState) :
    Except PError (Option Entity) × PopState × List NetCall :=
  let _ := rendered_action_data
  let search_data := action_data.search_query
  let entity_id := action_data.id
  if !optNatTruthy entity_id && !optStrTruthy search_data then
    (Except.error (PError.runtimeError "delete: missing id or search_query"),
     st, [])
  else
    let resolved : Except PError Nat × List NetCall :=
      if !optNatTruthy entity_id then
        match get_search_result api model search true silent_errors with
        | (Except.error e, calls) => (Except.error e, calls)
        | (Except.ok none, calls) =>
            (Except.error (PError.runtimeError "delete: Cannot find entity"),
             calls)
        | (Except.ok (some search_result), calls) =>
            (Except.ok search_result.id, calls)
      else
        (Except.ok (entity_id.getD 0), [])
    match resolved with
    | (Except.error e, calls) => (Except.error e, st, calls)
    | (Except.ok eid, calls) =>
        let calls := calls ++ [NetCall.delete model eid]
        match api.deleteError with
        | some e => (Except.error e, st, calls)
        | none => (Except.ok none, st, calls)

/-- `getattr(self, "action_{0}".format(action))(...)`: the dynamic dispatch of
`populate` to the verb handler; an unknown verb raises `AttributeError`
(caught by the enclosing `except Exception`).  The model type resolved by
`getattr(entities, action_data['model'])` is identified by its name. -/
def dispatchAction (api : Api)
    (rendered_action_data : List (String × String)) (action_data : ActionData)
    (search : String) (action : String) (st : PopState) :
    Except PError (Option Entity) × PopState × List NetCall :=
  let model := action_data.model
  let silent_errors := action_data.silent_errors
  match action with
  | "create" =>
      action_create api rendered_action_data action_data search model
        silent_errors st
  | "update" =>
      action_update api rendered_action_data action_data search model
        silent_errors st
  | "delete" =>
      action_delete api rendered_action_data action_data search model
        silent_errors st
  | _ =>
      (Except.error (PError.attributeError
        ("APIPopulator object has no attribute action_" ++ action)), st, [])

/-- Outcome of a call to `populate` or `validate`: either a normal return or
an exception unwinding to the caller, together with the state at that point. -/
inductive Outcome where
  | returned (st : PopState)
  | raised (e : PError) (st : PopState)
deriving DecidableEq, Repr

/-- Whether the call unwound with an exception. -/
def Outcome.isRaised : Outcome → Bool
  | .returned _ => false
  | .raised _ _ => true

/-- The run-scoped state when the call ends (normally or by exception). -/
def Outcome.state : Outcome → PopState
  | .returned st => st
  | .raised _ st => st

/-- `APIPopulator.populate`: dispatches to the verb handler; on success
records the result in the registry; on `HTTPError` logs one error record and
returns (the `except HTTPError` clause comes first and does not re-raise); on
any other exception logs one error record, then returns if `silent_errors` is
set and re-raises otherwise. -/
def populate (api : Api) (mode : String)
    (rendered_action_data : List (String × String)) (action_data : ActionData)
    (search : String) (action : String) (st : PopState) :
    Outcome × List NetCall :=
  let silent_errors := action_data.silent_errors
  match dispatchAction api rendered_action_data action_data search action st with
  | (Except.error e, st', calls) =>
      if isHTTPError e then
        (Outcome.returned (add_and_log_error mode st' action_data
          rendered_action_data search (some (ErrArg.exc e))), calls)
      else
        let st2 := add_and_log_error mode st' action_data
          rendered_action_data search (some (ErrArg.exc e))
        if silent_errors then (Outcome.returned st2, calls)
        else (Outcome.raised e st2, calls)
  | (Except.ok result, st', calls) =>
      (Outcome.returned (add_to_registry st' action_data result), calls)

/-- `APIPopulator.validate`: a no-op unless the verb is `create` or
`assertion` and `skip_validation` is unset; raises `TypeError` for a
non-searchable model; then performs the unique existence search, catching only
`HTTPError` (logged, never re-raised); a found entity is appended to `found`
and recorded in the registry, an absent one is recorded as `None` in the
registry together with one "does not exist" error record. -/
def validate (api : Api) (mode : String)
    (rendered_action_data : List (String × String)) (action_data : ActionData)
    (search : String) (action : String) (st : PopState) :
    Outcome × List NetCall :=
  let silent_errors := action_data.silent_errors
  if (action != "create" && action != "assertion")
      || action_data.skip_validation then
    (Outcome.returned st, [])
  else if !api.searchable then
    (Outcome.raised (PError.typeError (action_data.model ++ " not searchable"))
      st, [])
  else
    match get_search_result api action_data.model search true silent_errors with
    | (Except.error e, calls) =>
        if isHTTPError e then
          (Outcome.returned (add_and_log_error mode st action_data
            rendered_action_data search (some (ErrArg.exc e))), calls)
        else
          (Outcome.raised e st, calls)
    | (Except.ok (some result), calls) =>
        (Outcome.returned
          (add_to_registry { st with found := st.found ++ [result] }
            action_data (some result)), calls)
    | (Except.ok none, calls) =>
        (Outcome.returned
          (add_and_log_error mode (add_to_registry st action_data none)
            action_data rendered_action_data search
            (some (ErrArg.msg "entity does not exist in the system"))), calls)

/-- `pat` occurs as a substring of `s`. -/
def strContains (s pat : String) : Prop :=
  ∃ a b : String, s = a ++ pat ++ b

/-! ### Shared structural lemmas about the handlers -/

theorem strAppend_assoc (a b c : String) : a ++ b ++ c = a ++ (b ++ c) := by
  rcases a with ⟨a⟩; rcases b with ⟨b⟩; rcases c with ⟨c⟩
  simp only [HAppend.hAppend, Append.append, String.append]
  congr 1
  exact List.append_assoc a b c

/-- `action_update` never mutates the run-scoped state. -/
theorem action_update_state (api : Api)
    (rendered_action_data : List (String × String)) (action_data : ActionData)
    (search model : String) (silent_errors : Bool) (st : PopState) :
    (action_update api rendered_action_data action_data search model
      silent_errors st).2.1 = st := by
  unfold action_update get_search_result
  dsimp only
  repeat' split
  all_goals rfl

/-- `action_delete` never mutates the run-scoped state. -/
theorem action_delete_state (api : Api)
    (rendered_action_data : List (String × String)) (action_data : ActionData)
    (search model : String) (silent_errors : Bool) (st : PopState) :
    (action_delete api rendered_action_data action_data search model
      silent_errors st).2.1 = st := by
  unfold action_delete get_search_result
  dsimp only
  repeat' split
  all_goals rfl

/-- `action_create` never touches the registry or the error list. -/
theorem action_create_frame (api : Api)
    (rendered_action_data : List (String × String)) (action_data : ActionData)
    (search model : String) (silent_errors : Bool) (st : PopState) :
    ((action_create api rendered_action_data action_data search model
        silent_errors st).2.1).registry = st.registry ∧
    ((action_create api rendered_action_data action_data search model
        silent_errors st).2.1).validation_errors = st.validation_errors := by
  unfold action_create get_search_result
  repeat' split
  all_goals exact ⟨rfl, rfl⟩

/-- When `action_create` raises, the run-scoped state is unchanged. -/
theorem action_create_error_state (api : Api)
    (rendered_action_data : List (String × String)) (action_data : ActionData)
    (search model : String) (silent_errors : Bool) (st : PopState)
    (e : PError) (st2 : PopState) (calls : List NetCall)
    (h : action_create api rendered_action_data action_data search model
          silent_errors st = (Except.error e, st2, calls)) : st2 = st := by
  unfold action_create get_search_result at h
  repeat' split at h
  all_goals simp only [Prod.mk.injEq] at h
  all_goals first
    | exact h.2.1.symm
    | exact absurd h.1 (by simp)

/-- When the dispatched verb handler raises, the run-scoped state is
unchanged. -/
theorem dispatchAction_error_state (api : Api)
    (rendered_action_data : List (String × String)) (action_data : ActionData)
    (search action : String) (st : PopState)
    (e : PError) (st2 : PopState) (calls : List NetCall)
    (h : dispatchAction api rendered_action_data action_data search action st
          = (Except.error e, st2, calls)) : st2 = st := by
  unfold dispatchAction at h
  split at h
  · exact action_create_error_state _ _ _ _ _ _ _ _ _ _ h
  · have h2 := congrArg (fun p =>
      (p : Except PError (Option Entity) × PopState × List NetCall).2.1) h
    dsimp only at h2
    rw [action_update_state] at h2
    exact h2.symm
  · have h2 := congrArg (fun p =>
      (p : Except PError (Option Entity) × PopState × List NetCall).2.1) h
    dsimp only at h2
    rw [action_delete_state] at h2
    exact h2.symm
  · simp only [Prod.mk.injEq] at h
    exact h.2.1.symm

/-- Dispatch never touches the registry or the error list (only `populate`
itself writes them). -/
theorem dispatchAction_frame (api : Api)
    (rendered_action_data : List (String × String)) (action_data : ActionData)
    (search action : String) (st : PopState) :
    ((dispatchAction api rendered_action_data action_data search action
        st).2.1).registry = st.registry ∧
    ((dispatchAction api rendered_action_data action_data search action
        st).2.1).validation_errors = st.validation_errors := by
  unfold dispatchAction
  split
  · exact action_create_frame _ _ _ _ _ _ _
  · rw [action_update_state]
    exact ⟨rfl, rfl⟩
  · rw [action_delete_state]
    exact ⟨rfl, rfl⟩
  · exact ⟨rfl, rfl⟩

/-- Reduction of the dynamic dispatch at the literal verb `create`. -/
theorem dispatchAction_create (api : Api)
    (rendered_action_data : List (String × String)) (action_data : ActionData)
    (search : String) (st : PopState) :
    dispatchAction api rendered_action_data action_data search "create" st =
      action_create api rendered_action_data action_data search
        action_data.model action_data.silent_errors st := rfl

/-- Reduction of the dynamic dispatch at the literal verb `update`. -/
theorem dispatchAction_update (api : Api)
    (rendered_action_data : List (String × String)) (action_data : ActionData)
    (search : String) (st : PopState) :
    dispatchAction api rendered_action_data action_data search "update" st =
      action_update api rendered_action_data action_data search
        action_data.model action_data.silent_errors st := rfl

/-- Reduction of the dynamic dispatch at the literal verb `delete`. -/
theorem dispatchAction_delete (api : Api)
    (rendered_action_data : List (String × String)) (action_data : ActionData)
    (search : String) (st : PopState) :
    dispatchAction api rendered_action_data action_data search "delete" st =
      action_delete api rendered_action_data action_data search
        action_data.model action_data.silent_errors st := rfl

/-- The missing-target configuration error of `action_update`. -/
theorem action_update_missing (api : Api)
    (rendered_action_data : List (String × String)) (action_data : ActionData)
    (search model : String) (silent_errors : Bool) (st : PopState)
    (hid : optNatTruthy action_data.id = false)
    (hq : optStrTruthy action_data.search_query = false) :
    action_update api rendered_action_data action_data search model
        silent_errors st =
      (Except.error (PError.runtimeError "update: missing id or search_query"),
       st, []) := by
  unfold action_update
  simp [hid, hq]

/-- The missing-target configuration error of `action_delete`. -/
theorem action_delete_missing (api : Api)
    (rendered_action_data : List (String × String)) (action_data : ActionData)
    (search model : String) (silent_errors : Bool) (st : PopState)
    (hid : optNatTruthy action_data.id = false)
    (hq : optStrTruthy action_data.search_query = false) :
    action_delete api rendered_action_data action_data search model
        silent_errors st =
      (Except.error (PError.runtimeError "delete: missing id or search_query"),
       st, []) := by
  unfold action_delete
  simp [hid, hq]

/-- A successful `populate` of a `create` action that finds an existing
entity: it is appended to `found` and recorded in the registry. -/
theorem populate_create_found (api : Api) (mode : String)
    (rendered_action_data : List (String × String)) (action_data : ActionData)
    (search : String) (r : Entity)
    (hs : api.searchResult = Except.ok (some r)) (st : PopState) :
    (populate api mode rendered_action_data action_data search "create" st).1 =
      Outcome.returned (add_to_registry
        { st with found := st.found ++ [r] } action_data (some r)) := by
  unfold populate
  rw [dispatchAction_create]
  unfold action_create get_search_result
  rw [hs]

/-- A successful `populate` of a `create` action that finds nothing: the
entity is created, appended to `created` and recorded in the registry. -/
theorem populate_create_new (api : Api) (mode : String)
    (rendered_action_data : List (String × String)) (action_data : ActionData)
    (search : String) (ent : Entity)
    (hs : api.searchResult = Except.ok none)
    (hc : api.createResult = Except.ok ent) (st : PopState) :
    (populate api mode rendered_action_data action_data search "create" st).1 =
      Outcome.returned (add_to_registry
        { st with created := st.created ++ [ent] } action_data (some ent)) := by
  unfold populate
  rw [dispatchAction_create]
  unfold action_create get_search_result
  rw [hs, hc]

/-! ### Concrete fixtures used by witnesses and counterexamples -/

/-- An action with no explicit id and no search query, `silent_errors`
unset. -/
def ad0 : ActionData := ⟨"Organization", none, none, false, false⟩

/-- An action with no explicit id and no search query, `silent_errors`
set. -/
def ad0silent : ActionData := ⟨"Organization", none, none, true, false⟩

/-- An action targeting the explicit id 42. -/
def adId42 : ActionData := ⟨"Organization", none, some 42, false, false⟩

/-- An action targeting the explicit id 5. -/
def adId5 : ActionData := ⟨"Organization", none, some 5, false, false⟩

/-- An entity that already exists remotely. -/
def entFound : Entity := ⟨7, [("name", "Default Organization")]⟩

/-- An entity as returned by a create call. -/
def entNew : Entity := ⟨9, [("name", "New Org")]⟩

/-- Oracle: the unique search finds `entFound`. -/
def apiFound : Api :=
  ⟨Except.ok (some entFound),
   Except.error (PError.runtimeError "create unreachable"), none, none, true⟩

/-- Oracle: the unique search finds nothing and create yields `entNew`. -/
def apiAbsent : Api := ⟨Except.ok none, Except.ok entNew, none, none, true⟩

/-- Oracle: the unique search finds `entNew` (the state of the system after
`apiAbsent`'s create has become searchable). -/
def apiFoundNew : Api :=
  ⟨Except.ok (some entNew),
   Except.error (PError.runtimeError "create unreachable"), none, none, true⟩

/-- Oracle: the unique search raises an HTTP transport failure. -/
def apiHttpSearch : Api :=
  ⟨Except.error (PError.httpError "500 Server Error" "boom"),
   Except.error (PError.runtimeError "create unreachable"), none, none, true⟩

/-- Oracle: the unique search finds nothing; mutations succeed. -/
def apiIdle : Api :=
  ⟨Except.ok none, Except.error (PError.runtimeError "create unreachable"),
   none, none, true⟩

/-! ### The claims -/

/-- C4: `action_create` performs the unique search first; when a match is
found it appends the found handle to `found` and returns it, the call trace
containing only the search (no create or other mutation call, whatever the
rendered data); only when no match is found does it construct the entity from
`rendered_action_data`, issue create, and append the new handle to
`created`. -/
theorem C4_create_if_absent (api : Api)
    (rendered_action_data : List (String × String)) (action_data : ActionData)
    (search model : String) (silent_errors : Bool) (st : PopState) :
    (∀ r, api.searchResult = Except.ok (some r) →
      action_create api rendered_action_data action_data search model
          silent_errors st =
        (Except.ok (some r), { st with found := st.found ++ [r] },
         [NetCall.search model search])) ∧
    (api.searchResult = Except.ok none →
      action_create api rendered_action_data action_data search model
          silent_errors st =
        (match api.createResult with
         | Except.ok ent =>
             (Except.ok (some ent), { st with created := st.created ++ [ent] },
              [NetCall.search model search,
               NetCall.create model rendered_action_data])
         | Except.error e =>
             (Except.error e, st,
              [NetCall.search model search,
               NetCall.create model rendered_action_data]))) := by
  constructor
  · intro r hr
    unfold action_create get_search_result
    rw [hr]
  · intro hr
    unfold action_create get_search_result
    rw [hr]
    rcases api.createResult with e | ent <;> rfl

/-- C4 witness: searching finds `entFound`, which is returned and appended to
`found` with no create call issued. -/
theorem C4_witness :
    action_create apiFound [("name", "Default Organization")] ad0
        "name=Default" "Organization" false initState =
      (Except.ok (some entFound), { initState with found := [entFound] },
       [NetCall.search "Organization" "name=Default"]) :=
  (C4_create_if_absent apiFound [("name", "Default Organization")] ad0
    "name=Default" "Organization" false initState).1 entFound rfl

/-- C6: for update and delete, an `action_data` with neither a (truthy) `id`
nor a (truthy) `search_query` makes the handler raise the configuration
`RuntimeError` with an empty network-call trace (no search, update or delete
was issued) and the state unchanged. -/
theorem C6_missing_target_config_error (api : Api)
    (rendered_action_data : List (String × String)) (action_data : ActionData)
    (search model : String) (silent_errors : Bool) (st : PopState)
    (hid : optNatTruthy action_data.id = false)
    (hq : optStrTruthy action_data.search_query = false) :
    action_update api rendered_action_data action_data search model
        silent_errors st =
      (Except.error (PError.runtimeError "update: missing id or search_query"),
       st, []) ∧
    action_delete api rendered_action_data action_data search model
        silent_errors st =
      (Except.error (PError.runtimeError "delete: missing id or search_query"),
       st, []) :=
  ⟨action_update_missing api rendered_action_data action_data search model
      silent_errors st hid hq,
   action_delete_missing api rendered_action_data action_data search model
      silent_errors st hid hq⟩

/-- C6 witness at a concrete action with no id and no search query. -/
theorem C6_witness :
    action_update apiIdle [] ad0 "q" "Organization" false initState =
      (Except.error (PError.runtimeError "update: missing id or search_query"),
       initState, []) ∧
    action_delete apiIdle [] ad0 "q" "Organization" false initState =
      (Except.error (PError.runtimeError "delete: missing id or search_query"),
       initState, []) :=
  C6_missing_target_config_error apiIdle [] ad0 "q" "Organization" false
    initState rfl rfl

/-- C7: every successful `action_update` returns the handle built from the
resolved id and the rendered fields, and its trace ends with one update call
carrying the resolved id and naming exactly the keys of
`rendered_action_data`; when the action has an explicit (truthy) id the
resolved id is that id. -/
theorem C7_update_partial (api : Api)
    (rendered_action_data : List (String × String)) (action_data : ActionData)
    (search model : String) (silent_errors : Bool) (st : PopState)
    (ent : Entity) (st2 : PopState) (calls : List NetCall)
    (h : action_update api rendered_action_data action_data search model
          silent_errors st = (Except.ok (some ent), st2, calls)) :
    ent.fields = rendered_action_data ∧
    (∃ pre, calls = pre ++ [NetCall.update model ent.id rendered_action_data
        (rendered_action_data.map Prod.fst)]) ∧
    (optNatTruthy action_data.id = true →
      ent.id = action_data.id.getD 0) := by
  unfold action_update get_search_result at h
  dsimp only at h
  repeat' split at h
  all_goals simp only [Prod.mk.injEq] at h
  any_goals exact Except.noConfusion h.1
  all_goals obtain ⟨h1, h2, h3⟩ := h
  all_goals rw [Except.ok.injEq, Option.some.injEq] at h1
  all_goals subst h1
  all_goals refine ⟨rfl, ⟨_, h3.symm⟩, fun hid => ?_⟩
  all_goals first | rfl | simp_all

/-- C7 witness: explicit `id=42` with rendered data `name=x` updates exactly
the `name` field and returns the handle with id 42. -/
theorem C7_witness :
    (Entity.mk 42 [("name", "x")]).fields = [("name", "x")] ∧
    (∃ pre,
      [NetCall.update "Organization" 42 [("name", "x")] ["name"]] =
        pre ++ [NetCall.update "Organization"
          (Entity.mk 42 [("name", "x")]).id [("name", "x")]
          ([("name", "x")].map Prod.fst)]) ∧
    (optNatTruthy adId42.id = true →
      (Entity.mk 42 [("name", "x")]).id = adId42.id.getD 0) :=
  C7_update_partial apiIdle [("name", "x")] adId42 "q" "Organization" false
    initState (Entity.mk 42 [("name", "x")]) initState
    [NetCall.update "Organization" 42 [("name", "x")] ["name"]] rfl

/-- C10: `action_delete` is independent of `rendered_action_data` (two
invocations differing only in the rendered data are equal in result, state and
trace), and a successful delete returns no entity handle, its trace ending
with a delete call carrying only the model and the resolved id — no field
values. -/
theorem C10_delete_ignores_rendered (api : Api)
    (rendered1 rendered2 : List (String × String)) (action_data : ActionData)
    (search model : String) (silent_errors : Bool) (st : PopState) :
    action_delete api rendered1 action_data search model silent_errors st =
      action_delete api rendered2 action_data search model silent_errors st ∧
    (∀ r st2 calls,
      action_delete api rendered1 action_data search model silent_errors st =
        (Except.ok r, st2, calls) →
      r = none ∧ ∃ pre eid, calls = pre ++ [NetCall.delete model eid]) := by
  constructor
  · rfl
  · intro r st2 calls h
    unfold action_delete get_search_result at h
    dsimp only at h
    repeat' split at h
    all_goals simp only [Prod.mk.injEq] at h
    any_goals exact Except.noConfusion h.1
    all_goals obtain ⟨h1, h2, h3⟩ := h
    all_goals rw [Except.ok.injEq] at h1
    all_goals exact ⟨h1.symm, _, _, h3.symm⟩

/-- C10 witness: deleting with explicit id 5 under two different rendered
data values gives identical outcomes, no returned handle, and a delete call
carrying only model and id. -/
theorem C10_witness :
    (action_delete apiIdle [("name", "x")] adId5 "q" "Organization" false
        initState =
      action_delete apiIdle [] adId5 "q" "Organization" false initState) ∧
    ((none : Option Entity) = none ∧
      ∃ pre eid, [NetCall.delete "Organization" 5] =
        pre ++ [NetCall.delete "Organization" eid]) :=
  ⟨(C10_delete_ignores_rendered apiIdle [("name", "x")] [] adId5 "q"
      "Organization" false initState).1,
   (C10_delete_ignores_rendered apiIdle [("name", "x")] [] adId5 "q"
      "Organization" false initState).2 none initState
      [NetCall.delete "Organization" 5] rfl⟩

/-- C1 counterexample: with `silent_errors = false`, the create handler raises
an `HTTPError`, yet `populate` returns normally instead of propagating it. -/
theorem C1_counterexample :
    ad0.silent_errors = false ∧
    (dispatchAction apiHttpSearch [] ad0 "q" "create" initState).1 =
      Except.error (PError.httpError "500 Server Error" "boom") ∧
    ((populate apiHttpSearch "populate" [] ad0 "q" "create"
        initState).1).isRaised = false :=
  ⟨rfl, rfl, rfl⟩

/-- C1 (amended): an `HTTPError` raised by the verb handler is caught
unconditionally by `populate` — regardless of `silent_errors` — after exactly
one ErrorRecord has been appended: the handler leaves the state unchanged and
`populate` returns normally with only that record added (no registry
write). -/
theorem C1_http_error_swallowed (api : Api) (mode : String)
    (rendered_action_data : List (String × String)) (action_data : ActionData)
    (search action : String) (st : PopState) (e : PError) (st' : PopState)
    (calls : List NetCall)
    (hd : dispatchAction api rendered_action_data action_data search action st
          = (Except.error e, st', calls))
    (he : isHTTPError e = true) :
    st' = st ∧
    (populate api mode rendered_action_data action_data search action st).1 =
      Outcome.returned { st with validation_errors := st.validation_errors ++
        [{ search := search
           message := mkErrorMessage mode action_data (some (ErrArg.exc e))
           rendered_action_data := rendered_action_data
           action_data := action_data }] } := by
  have hst := dispatchAction_error_state _ _ _ _ _ _ _ _ _ hd
  subst hst
  refine ⟨rfl, ?_⟩
  unfold populate
  rw [hd]
  simp [he, add_and_log_error]

/-- C1 witness: the amended claim at a concrete transport failure. -/
theorem C1_witness :
    initState = initState ∧
    (populate apiHttpSearch "populate" [] ad0 "q" "create" initState).1 =
      Outcome.returned { initState with validation_errors :=
        initState.validation_errors ++
          [{ search := "q"
             message := mkErrorMessage "populate" ad0
               (some (ErrArg.exc (PError.httpError "500 Server Error" "boom")))
             rendered_action_data := []
             action_data := ad0 }] } :=
  C1_http_error_swallowed apiHttpSearch "populate" [] ad0 "q" "create"
    initState (PError.httpError "500 Server Error" "boom") initState
    [NetCall.search "Organization" "q"] rfl rfl

/-- C2 counterexample: with `silent_errors = true`, an update action missing
both `id` and `search_query` raises the configuration `RuntimeError` in the
handler, yet `populate` swallows it (returns normally) — the configuration
error is silenced, not propagated. -/
theorem C2_counterexample :
    ad0silent.silent_errors = true ∧
    (dispatchAction apiIdle [] ad0silent "q" "update" initState).1 =
      Except.error
        (PError.runtimeError "update: missing id or search_query") ∧
    ((populate apiIdle "populate" [] ad0silent "q" "update"
        initState).1).isRaised = false :=
  ⟨rfl, rfl, rfl⟩

/-- C2 (amended): the missing-id/search_query configuration error of
update/delete is handled by `populate` like any generic exception: exactly one
ErrorRecord is appended, and the error propagates to the caller only when
`silent_errors` is false; with `silent_errors` true it is swallowed. -/
theorem C2_config_error_gated_by_silent (api : Api) (mode : String)
    (rendered_action_data : List (String × String)) (action_data : ActionData)
    (search action : String) (st : PopState)
    (hact : action = "update" ∨ action = "delete")
    (hid : optNatTruthy action_data.id = false)
    (hq : optStrTruthy action_data.search_query = false) :
    (populate api mode rendered_action_data action_data search action st).1 =
      (if action_data.silent_errors then
        Outcome.returned (add_and_log_error mode st action_data
          rendered_action_data search
          (some (ErrArg.exc (PError.runtimeError
            (action ++ ": missing id or search_query")))))
      else
        Outcome.raised
          (PError.runtimeError (action ++ ": missing id or search_query"))
          (add_and_log_error mode st action_data rendered_action_data search
            (some (ErrArg.exc (PError.runtimeError
              (action ++ ": missing id or search_query")))))) := by
  rcases hact with rfl | rfl
  · unfold populate
    rw [dispatchAction_update,
      action_update_missing api rendered_action_data action_data search
        action_data.model action_data.silent_errors st hid hq,
      show ("update" : String) ++ ": missing id or search_query" =
        "update: missing id or search_query" from rfl]
    by_cases hs : action_data.silent_errors = true <;>
      simp [hs, isHTTPError]
  · unfold populate
    rw [dispatchAction_delete,
      action_delete_missing api rendered_action_data action_data search
        action_data.model action_data.silent_errors st hid hq,
      show ("delete" : String) ++ ": missing id or search_query" =
        "delete: missing id or search_query" from rfl]
    by_cases hs : action_data.silent_errors = true <;>
      simp [hs, isHTTPError]

/-- C2 witness: with `silent_errors` false the configuration error does
propagate (the run halts) after one ErrorRecord. -/
theorem C2_witness :
    (populate apiIdle "populate" [] ad0 "q" "update" initState).1 =
      (if ad0.silent_errors then
        Outcome.returned (add_and_log_error "populate" initState ad0 [] "q"
          (some (ErrArg.exc (PError.runtimeError
            ("update" ++ ": missing id or search_query")))))
      else
        Outcome.raised
          (PError.runtimeError ("update" ++ ": missing id or search_query"))
          (add_and_log_error "populate" initState ad0 [] "q"
            (some (ErrArg.exc (PError.runtimeError
              ("update" ++ ": missing id or search_query")))))) :=
  C2_config_error_gated_by_silent apiIdle "populate" [] ad0 "q" "update"
    initState (Or.inl rfl) rfl rfl

/-- C3 counterexample: an action whose handler fails with a transport error is
processed to completion (`populate` returns, one ErrorRecord is logged), yet
no registry entry at all is produced for it. -/
theorem C3_counterexample :
    ((((populate apiHttpSearch "populate" [] ad0 "q" "create"
        initState).1).state).registry).length = 0 ∧
    ((((populate apiHttpSearch "populate" [] ad0 "q" "create"
        initState).1).state).validation_errors).length = 1 ∧
    ((populate apiHttpSearch "populate" [] ad0 "q" "create"
        initState).1).isRaised = false :=
  ⟨rfl, rfl, rfl⟩

/-- C3 (amended): `populate` writes exactly one registry entry when the verb
handler succeeds, and none when the handler raises — whether the failure is
swallowed or re-raised — so a failed action's key is missing from the
registry. -/
theorem C3_registry_only_on_success (api : Api) (mode : String)
    (rendered_action_data : List (String × String)) (action_data : ActionData)
    (search action : String) (st : PopState) :
    ((((populate api mode rendered_action_data action_data search action
        st).1).state).registry) =
      (match (dispatchAction api rendered_action_data action_data search
          action st).1 with
       | Except.ok result => st.registry ++ [(action_data, result)]
       | Except.error _ => st.registry) := by
  have hf := (dispatchAction_frame api rendered_action_data action_data search
    action st).1
  rcases hd : dispatchAction api rendered_action_data action_data search
    action st with ⟨res, st', calls⟩
  rw [hd] at hf
  dsimp only at hf
  unfold populate
  rw [hd]
  rcases res with e | r
  · dsimp only
    by_cases hh : isHTTPError e = true
    · simp [hh, add_and_log_error, Outcome.state, hf]
    · by_cases hs : action_data.silent_errors = true <;>
        simp [hh, hs, add_and_log_error, Outcome.state, hf]
  · simp [add_to_registry, Outcome.state, hf]

/-- C5: running the same create action twice, where the second run's unique
search finds the entity the first run created (same id), leaves exactly one
entry in `created` (from the first run) and the second run appends exactly one
entry to `found`, referring to the same entity id. -/
theorem C5_create_idempotent (api1 api2 : Api) (mode : String)
    (rendered_action_data : List (String × String)) (action_data : ActionData)
    (search : String) (st : PopState) (ent ent' : Entity)
    (hc0 : st.created = []) (hf0 : st.found = [])
    (h1 : api1.searchResult = Except.ok none)
    (h2 : api1.createResult = Except.ok ent)
    (h3 : api2.searchResult = Except.ok (some ent'))
    (hid : ent'.id = ent.id) :
    ((((populate api1 mode rendered_action_data action_data search "create"
        st).1).state).created) = [ent] ∧
    ((((populate api1 mode rendered_action_data action_data search "create"
        st).1).state).found) = [] ∧
    ((((populate api2 mode rendered_action_data action_data search "create"
        (((populate api1 mode rendered_action_data action_data search "create"
          st).1).state)).1).state).created) = [ent] ∧
    ((((populate api2 mode rendered_action_data action_data search "create"
        (((populate api1 mode rendered_action_data action_data search "create"
          st).1).state)).1).state).found) = [ent'] ∧
    ent'.id = ent.id := by
  refine ⟨?_, ?_, ?_, ?_, hid⟩ <;>
    simp [populate_create_new api1 mode rendered_action_data action_data
            search ent h1 h2,
          populate_create_found api2 mode rendered_action_data action_data
            search ent' h3,
          add_to_registry, Outcome.state, hc0, hf0]

/-- C5 witness: concrete double run — the first creates `entNew`, the second
finds it. -/
theorem C5_witness :
    ((((populate apiAbsent "populate" [("name", "New Org")] ad0 "name=New Org"
        "create" initState).1).state).created) = [entNew] ∧
    ((((populate apiAbsent "populate" [("name", "New Org")] ad0 "name=New Org"
        "create" initState).1).state).found) = [] ∧
    ((((populate apiFoundNew "populate" [("name", "New Org")] ad0
        "name=New Org" "create"
        (((populate apiAbsent "populate" [("name", "New Org")] ad0
          "name=New Org" "create" initState).1).state)).1).state).created) =
      [entNew] ∧
    ((((populate apiFoundNew "populate" [("name", "New Org")] ad0
        "name=New Org" "create"
        (((populate apiAbsent "populate" [("name", "New Org")] ad0
          "name=New Org" "create" initState).1).state)).1).state).found) =
      [entNew] ∧
    entNew.id = entNew.id :=
  C5_create_idempotent apiAbsent apiFoundNew "populate" [("name", "New Org")]
    ad0 "name=New Org" initState entNew entNew rfl rfl rfl rfl rfl rfl

/-- C8: `validate` on a create or assertion action whose unique search finds
no entity writes the explicit absence marker `none` to the registry under the
action's key, appends exactly one ErrorRecord whose message contains "does
not exist", and returns normally (does not raise). -/
theorem C8_validate_absent_marker (api : Api) (mode : String)
    (rendered_action_data : List (String × String)) (action_data : ActionData)
    (search action : String) (st : PopState)
    (hact : action = "create" ∨ action = "assertion")
    (hsk : action_data.skip_validation = false)
    (hm : api.searchable = true)
    (hs : api.searchResult = Except.ok none) :
    (validate api mode rendered_action_data action_data search action st).1 =
      Outcome.returned { st with
        registry := st.registry ++ [(action_data, none)]
        validation_errors := st.validation_errors ++
          [{ search := search
             message := mkErrorMessage mode action_data
               (some (ErrArg.msg "entity does not exist in the system"))
             rendered_action_data := rendered_action_data
             action_data := action_data }] } ∧
    strContains
      (mkErrorMessage mode action_data
        (some (ErrArg.msg "entity does not exist in the system")))
      "does not exist" := by
  constructor
  · rcases hact with rfl | rfl <;>
      (unfold validate get_search_result
       rw [hs]
       simp [hsk, hm, add_and_log_error, add_to_registry])
  · refine ⟨mode ++ ": " ++ "entity ",
      " in the system" ++ (" " ++ showActionData action_data), ?_⟩
    show mode ++ ": " ++ "entity does not exist in the system" ++ " "
        ++ showActionData action_data ++ "" = _
    rw [show ("entity does not exist in the system" : String) =
        "entity " ++ "does not exist" ++ " in the system" from rfl,
      String.append_empty]
    simp only [strAppend_assoc]

/-- C8 witness: validating an assertion action against a system where the
entity is absent. -/
theorem C8_witness :
    (validate apiIdle "validate" [] ad0 "q" "assertion" initState).1 =
      Outcome.returned { initState with
        registry := initState.registry ++ [(ad0, none)]
        validation_errors := initState.validation_errors ++
          [{ search := "q"
             message := mkErrorMessage "validate" ad0
               (some (ErrArg.msg "entity does not exist in the system"))
             rendered_action_data := []
             action_data := ad0 }] } ∧
    strContains
      (mkErrorMessage "validate" ad0
        (some (ErrArg.msg "entity does not exist in the system")))
      "does not exist" :=
  C8_validate_absent_marker apiIdle "validate" [] ad0 "q" "assertion"
    initState (Or.inr rfl) rfl rfl rfl

/-- C9: inside `validate`, an `HTTPError` raised by the existence search is
unconditionally caught — whatever `silent_errors` says — converted into
exactly one ErrorRecord, and never re-raised; the state is otherwise
untouched (validation for the action ends). -/
theorem C9_validate_http_never_raises (api : Api) (mode : String)
    (rendered_action_data : List (String × String)) (action_data : ActionData)
    (search action : String) (st : PopState) (e : PError)
    (hact : action = "create" ∨ action = "assertion")
    (hsk : action_data.skip_validation = false)
    (hm : api.searchable = true)
    (hs : api.searchResult = Except.error e)
    (he : isHTTPError e = true) :
    (validate api mode rendered_action_data action_data search action st).1 =
      Outcome.returned { st with validation_errors := st.validation_errors ++
        [{ search := search
           message := mkErrorMessage mode action_data (some (ErrArg.exc e))
           rendered_action_data := rendered_action_data
           action_data := action_data }] } := by
  rcases hact with rfl | rfl <;>
    (unfold validate get_search_result
     rw [hs]
     simp [hsk, hm, he, add_and_log_error])

/-- C9 witness: a transport failure during the validation search of a
`silent_errors = true` action is recorded and not re-raised. -/
theorem C9_witness :
    (validate apiHttpSearch "validate" [] ad0silent "q" "create"
        initState).1 =
      Outcome.returned { initState with validation_errors :=
        initState.validation_errors ++
          [{ search := "q"
             message := mkErrorMessage "validate" ad0silent
               (some (ErrArg.exc (PError.httpError "500 Server Error" "boom")))
             rendered_action_data := []
             action_data := ad0silent }] } :=
  C9_validate_http_never_raises apiHttpSearch "validate" [] ad0silent "q"
    "create" initState (PError.httpError "500 Server Error" "boom")
    (Or.inl rfl) rfl rfl rfl rfl

end SatPop
